import Mathlib

/-!
Verification of the cmc attestation daemon core against its specification.

The development shallowly embeds three source files:
* the attestedtls frame codec (`Write`, `Read` over a length-prefixed stream),
* the cmcd unix-domain-socket binding (`handleIncoming` and the four handlers),
* the cmcd remote-procedure binding (`Attest`, `Verify`, `TLSSign`, `TLSCert`).

External collaborators (cbor/json marshalling, the attestation-report engine,
the hardware signer) are modelled as oracle parameters; the control flow and
the data that crosses it are translated from the source.
-/

namespace AttestedTLS

/-- Big-endian 4-byte encoding of a message length, as produced by
binary.BigEndian.PutUint32 applied to the Go conversion uint32(len(msg));
the truncation modulo 2^32 is reflected by the per-byte mod-256 arithmetic. -/
def be32 (n : Nat) : List Nat :=
  [n / 2 ^ 24 % 256, n / 2 ^ 16 % 256, n / 2 ^ 8 % 256, n % 256]

/-- binary.BigEndian.Uint32 on a 4-byte buffer. -/
def be32dec (l : List Nat) : Nat :=
  l.getD 0 0 * 2 ^ 24 + l.getD 1 0 * 2 ^ 16 + l.getD 2 0 * 2 ^ 8 + l.getD 3 0

/-- func Write (attestedtls backend): prepends the 4-byte big-endian length of
msg and writes prefix ++ msg as one buffer; modelled as the byte sequence put
on the wire. -/
def Write (msg : List Nat) : List Nat :=
  be32 msg.length ++ msg

/-- The modelled peer stream seen by func Read. `data` is the sequence of bytes
still readable. `sched` drives how many bytes each underlying net.Conn Read
call delivers (each entry used once, at least one byte delivered per successful
call); when the schedule is exhausted every read delivers as much as fits, so
an empty schedule models a stream that always fills the caller's buffer.
Reading from an exhausted stream fails, modelling io.EOF. -/
structure Conn where
  data : List Nat
  sched : List Nat
deriving DecidableEq

/-- Bytes granted to one underlying read before capping by availability. -/
def grantSize (bufsize : Nat) : List Nat → Nat
  | [] => bufsize
  | s :: _ => min bufsize (max 1 s)

/-- Remaining delivery schedule after one underlying read. -/
def schedRest : List Nat → List Nat
  | [] => []
  | _ :: rest => rest

/-- One underlying c.Read(buf) call with len(buf) = bufsize: delivers
min(bufsize, granted, available) bytes; none (an error) when the stream is
exhausted. -/
def connRead (bufsize : Nat) (c : Conn) : Option (List Nat × Conn) :=
  if c.data.isEmpty then none
  else
    let t := min (grantSize bufsize c.sched) c.data.length
    some (c.data.take t, ⟨c.data.drop t, schedRest c.sched⟩)

/-- The three failure exits of func Read. -/
inductive ReadError where
  | noLength
  | zeroLength
  | payloadFail
deriving DecidableEq

/-- The message func Read attaches to each failure (the collaborator error
formatted behind %v / %w is abstracted away). -/
def ReadError.message : ReadError → String
  | .noLength => "failed to receive message: no length"
  | .zeroLength => "message length is zero"
  | .payloadFail => "failed to receive message"

/-- The payload loop of func Read: repeatedly reads into a 1024-byte buffer,
accumulates the chunks, and stops exactly when the running uint32 count equals
the length from the prefix. Each successful underlying read consumes at least
one byte of the finite modelled stream, so the loop iterates at most
data-length many times; the fuel argument is an upper bound on iterations that
makes the recursion structural, and readPayloadF_fuel below shows every
sufficient fuel yields the same result. -/
def readPayloadF : Nat → Nat → Nat → List Nat → Conn → Except ReadError (List Nat)
  | 0, _, _, _, _ => .error .payloadFail
  | fuel + 1, len, rcvlen, buf, c =>
    match connRead 1024 c with
    | none => .error .payloadFail
    | some (chunk, c2) =>
      let rcvlen2 := (rcvlen + chunk.length) % 2 ^ 32
      let buf2 := buf ++ chunk
      if rcvlen2 = len then .ok buf2
      else readPayloadF fuel len rcvlen2 buf2 c2

/-- func Read (attestedtls backend): one underlying read into a 4-byte length
buffer (bytes the read does not deliver stay zero, as in Go's make([]byte, 4)
— the returned count is ignored by the source), big-endian decode, rejection
of a zero length, then the chunked payload loop. -/
def Read (c : Conn) : Except ReadError (List Nat) :=
  match connRead 4 c with
  | none => .error .noLength
  | some (chunk, c2) =>
    let lenbuf := chunk ++ List.replicate (4 - chunk.length) 0
    let len := be32dec lenbuf
    if len = 0 then .error .zeroLength
    else readPayloadF (c2.data.length + 1) len 0 [] c2

lemma grantSize_pos (b : Nat) (sched : List Nat) (hb : 1 ≤ b) :
    1 ≤ grantSize b sched := by
  cases sched with
  | nil => simpa [grantSize] using hb
  | cons s rest => simp [grantSize]; omega

lemma connRead_data_lt {b : Nat} {c : Conn} {chunk : List Nat} {c2 : Conn}
    (h : connRead b c = some (chunk, c2)) (hb : 1 ≤ b) :
    c2.data.length < c.data.length := by
  unfold connRead at h
  by_cases he : c.data.isEmpty
  · simp [he] at h
  · have hd : c.data ≠ [] := by simpa [List.isEmpty_iff] using he
    have hdl : 0 < c.data.length := List.length_pos.mpr hd
    have h1 : 1 ≤ grantSize b c.sched := grantSize_pos b c.sched hb
    have he' : c.data.isEmpty = false := by simpa using he
    rw [he'] at h
    simp only [Bool.false_eq_true, if_false, Option.some.injEq, Prod.mk.injEq] at h
    obtain ⟨-, h2⟩ := h
    subst h2
    simp only [List.length_drop]
    omega

/-- Any two sufficient fuels agree: the fuel-out branch of readPayloadF is
unreachable once the fuel exceeds the remaining stream length. -/
lemma readPayloadF_fuel :
    ∀ (m n len rcvlen : Nat) (buf : List Nat) (c : Conn),
      c.data.length < m → c.data.length < n →
      readPayloadF m len rcvlen buf c = readPayloadF n len rcvlen buf c := by
  intro m
  induction m with
  | zero => intro n len rcvlen buf c hm; omega
  | succ m ih =>
    intro n len rcvlen buf c hm hn
    cases n with
    | zero => omega
    | succ n =>
      rcases hcr : connRead 1024 c with _ | ⟨chunk, c2⟩
      · simp only [readPayloadF, hcr]
      · have hlt := connRead_data_lt hcr (by omega)
        simp only [readPayloadF, hcr]
        by_cases hif : (rcvlen + chunk.length) % 2 ^ 32 = len
        · rw [if_pos hif, if_pos hif]
        · rw [if_neg hif, if_neg hif]
          exact ih n len _ _ c2 (by omega) (by omega)

/-- On a schedule-free stream holding exactly the remaining payload, the loop
accumulates everything and succeeds. -/
lemma readPayload_exact :
    ∀ (n : Nat) (data : List Nat), data ≠ [] → data.length < n →
      ∀ (rcvlen : Nat) (buf : List Nat) (len : Nat),
        rcvlen + data.length = len → len < 2 ^ 32 →
        readPayloadF n len rcvlen buf ⟨data, []⟩ = .ok (buf ++ data) := by
  intro n
  induction n with
  | zero => intro data hne h; omega
  | succ n ih =>
    intro data hne hlen rcvlen buf len hsum hlt
    have hdl : 1 ≤ data.length := by
      cases data with
      | nil => simp at hne
      | cons x xs => simp
    have hcr : connRead 1024 ⟨data, []⟩ =
        some (data.take (min 1024 data.length),
              ⟨data.drop (min 1024 data.length), []⟩) := by
      unfold connRead
      have : (Conn.mk data []).data.isEmpty = false := by
        simpa [List.isEmpty_iff] using hne
      simp [this, grantSize, schedRest]
    simp only [readPayloadF, hcr]
    by_cases hsm : data.length ≤ 1024
    · have ht : min 1024 data.length = data.length := by omega
      rw [ht, List.take_length]
      have hmod : (rcvlen + data.length) % 2 ^ 32 = len := by omega
      rw [hmod, if_pos rfl]
    · have ht : min 1024 data.length = 1024 := by omega
      rw [ht]
      have hch2 : (List.take 1024 data).length = 1024 := by
        simp
        omega
      rw [hch2]
      have hmod : (rcvlen + 1024) % 2 ^ 32 = rcvlen + 1024 := by omega
      have hne2 : rcvlen + 1024 ≠ len := by omega
      rw [hmod, if_neg hne2]
      have hdrop : (data.drop 1024) ≠ [] := by
        intro hn
        have hl2 := congrArg List.length hn
        simp at hl2
        omega
      have hrec := ih (data.drop 1024) hdrop (by simp; omega)
        (rcvlen + 1024) (buf ++ data.take 1024) len (by simp; omega) hlt
      rw [hrec, List.append_assoc, List.take_append_drop]

/-- A first underlying read that delivers a full 4-byte prefix on a
schedule-free stream. -/
lemma connRead_exact_prefix (p rest : List Nat) (hp : p.length = 4) :
    connRead 4 ⟨p ++ rest, []⟩ = some (p, ⟨rest, []⟩) := by
  unfold connRead
  have hne : ((Conn.mk (p ++ rest) []).data.isEmpty) = false := by
    cases p with
    | nil => simp at hp
    | cons x xs => simp
  have hl : (p ++ rest).length = 4 + rest.length := by simp [hp]
  have ht : min (grantSize 4 ([] : List Nat)) (p ++ rest).length = 4 := by
    simp [grantSize, hl]
  simp only [hne, ht, schedRest]
  rw [← hp, List.take_left, List.drop_left]
  simp

lemma be32_length (n : Nat) : (be32 n).length = 4 := by simp [be32]

lemma be32dec_be32 (n : Nat) (h : n < 2 ^ 32) : be32dec (be32 n) = n := by
  simp only [be32, be32dec, List.getD]
  norm_num
  omega

/-- A short first read leaves the tail of the 4-byte length buffer zero, and
any prefix of zero bytes then decodes to length zero. -/
lemma lenbuf_zeros (rest : List Nat) (t : Nat) (h1 : 1 ≤ t) (h4 : t ≤ 4) :
    (0 :: 0 :: 0 :: 0 :: rest).take t
      ++ List.replicate (4 - ((0 :: 0 :: 0 :: 0 :: rest).take t).length) 0
      = List.replicate 4 0 := by
  interval_cases t <;> rfl

end AttestedTLS

namespace Cmcd

/-- Modelled from the spec: the operation tags of the api package
(api.TypeAttest, api.TypeVerify, api.TypeTLSCert, api.TypeTLSSign). The api
package is not among the sources; only the distinctness of the tags matters
to the dispatcher, so they are fixed to four distinct naturals. -/
def TypeAttest : Nat := 0

/-- Modelled from the spec: api.TypeVerify (see TypeAttest). -/
def TypeVerify : Nat := 1

/-- Modelled from the spec: api.TypeTLSCert (see TypeAttest). -/
def TypeTLSCert : Nat := 2

/-- Modelled from the spec: api.TypeTLSSign (see TypeAttest). -/
def TypeTLSSign : Nat := 3

/-- Observable actions of one accepted socket connection: the api.Receive
call, an api.Send of a typed success response, an api.SendError (the
collaborator error formatted behind %v is abstracted to the static format
text), and the deferred conn.Close. -/
inductive Action where
  | receive : Action
  | send (typ : Nat) (data : List Nat) : Action
  | sendErr (msg : String) : Action
  | close : Action
deriving DecidableEq

/-- An action that answers the request: a typed success send or an error
response. -/
def Action.isResponse : Action → Bool
  | .send _ _ => true
  | .sendErr _ => true
  | _ => false

/-- api.AttestationRequest: {nonce}. -/
structure AttestationRequest where
  nonce : List Nat
deriving DecidableEq

/-- api.VerificationRequest: {attestation report, nonce, ca, policies}. -/
structure VerificationRequest where
  attestationReport : List Nat
  nonce : List Nat
  ca : List Nat
  policies : List Nat
deriving DecidableEq

/-- Modelled from the spec: ar.VerificationResult, the outcome of checking a
report — per-measurement detail plus an overall boolean verdict. The
attestationreport package is not among the sources and the handlers below
never inspect the value; only its presence (and that the verdict may be
false) matters. -/
structure VerificationResult where
  success : Bool
  detail : List Nat
deriving DecidableEq

/-- api.TLSSignRequest: {id, content, hashtype, pssOpts}; also the type the
socket tlscert handler unmarshals its payload into. -/
structure TLSSignRequest where
  id : List Nat
  content : List Nat
  hashtype : Nat
  pssOpts : List Nat
deriving DecidableEq

/-- The ServerConfig together with the external collaborators each socket
handler calls (cbor.Unmarshal, ar.Generate, ar.Sign, ar.Verify, json.Marshal,
cbor.Marshal, api.HashToSignerOpts, the Signer and internal.WriteCertsPem),
modelled as oracles. conf.Metadata, conf.MeasurementInterfaces,
conf.Serializer and conf.PolicyEngineSelect are folded into the oracle that
consumes them; `signerIsNil` models conf.Signer == nil. -/
structure ServerConfig where
  unmarshalAttest : List Nat → Option AttestationRequest
  generate : List Nat → Option (List Nat)
  signerIsNil : Bool
  signReport : List Nat → Option (List Nat)
  marshalAttestResp : List Nat → Option (List Nat)
  unmarshalVerify : List Nat → Option VerificationRequest
  arVerify : VerificationRequest → VerificationResult
  jsonMarshalResult : VerificationResult → Option (List Nat)
  marshalVerifyResp : List Nat → Option (List Nat)
  unmarshalSign : List Nat → Option TLSSignRequest
  hashToSignerOpts : Nat → List Nat → Option (List Nat)
  getSigningKeys : Option (List Nat)
  signContent : List Nat → List Nat → List Nat → Option (List Nat)
  marshalSignResp : List Nat → Option (List Nat)
  getCertChain : List (List Nat)
  writeCertsPem : List (List Nat) → List (List Nat)
  marshalCertResp : List (List Nat) → Option (List Nat)

/-- func attest (socket.go): unmarshal the attestation request, generate the
report, reject a nil signer, sign, marshal and send the typed response; every
failure exit sends one error response. -/
def attest (conf : ServerConfig) (payload : List Nat) : List Action :=
  match conf.unmarshalAttest payload with
  | none => [.sendErr "failed to unmarshal attestation request"]
  | some req =>
    match conf.generate req.nonce with
    | none => [.sendErr "failed to generate attestation report"]
    | some report =>
      if conf.signerIsNil then
        [.sendErr "Failed to sign attestation report: No valid signer specified in config"]
      else
        match conf.signReport report with
        | none => [.sendErr "Failed to sign attestation report"]
        | some r =>
          match conf.marshalAttestResp r with
          | none => [.sendErr "failed to marshal message"]
          | some data => [.send TypeAttest data]

/-- func verify (socket.go): unmarshal the verification request, run
ar.Verify (which always yields a result), json-marshal the result, wrap and
cbor-marshal the response, send it with TypeVerify. -/
def verify (conf : ServerConfig) (payload : List Nat) : List Action :=
  match conf.unmarshalVerify payload with
  | none => [.sendErr "Failed to unmarshal verification request"]
  | some req =>
    let result := conf.arVerify req
    match conf.jsonMarshalResult result with
    | none => [.sendErr "Verifier: failed to marshal Attestation Result"]
    | some r =>
      match conf.marshalVerifyResp r with
      | none => [.sendErr "failed to marshal message"]
      | some data => [.send TypeVerify data]

/-- func tlssign (socket.go): unmarshal, choose signer options, fetch the
key handle, sign the content, marshal and send the typed response. -/
def tlssign (conf : ServerConfig) (payload : List Nat) : List Action :=
  match conf.unmarshalSign payload with
  | none => [.sendErr "failed to unmarshal payload"]
  | some req =>
    match conf.hashToSignerOpts req.hashtype req.pssOpts with
    | none => [.sendErr "failed to choose requested hash function"]
    | some opts =>
      match conf.getSigningKeys with
      | none => [.sendErr "failed to get IK"]
      | some key =>
        match conf.signContent key req.content opts with
        | none => [.sendErr "failed to sign"]
        | some sig =>
          match conf.marshalSignResp sig with
          | none => [.sendErr "failed to marshal message"]
          | some data => [.send TypeTLSSign data]

/-- func tlscert (socket.go): unmarshal into a TLSSignRequest (the id field is
only logged), fetch the signer's certificate chain, PEM-encode it, marshal and
send the typed response; the request value is never consulted. -/
def tlscert (conf : ServerConfig) (payload : List Nat) : List Action :=
  match conf.unmarshalSign payload with
  | none => [.sendErr "failed to unmarshal payload"]
  | some _req =>
    let certChain := conf.getCertChain
    match conf.marshalCertResp (conf.writeCertsPem certChain) with
    | none => [.sendErr "failed to marshal message"]
    | some data => [.send TypeTLSCert data]

/-- func handleIncoming (socket.go): one api.Receive, a dispatch on the
operation tag (an error response for a Receive failure or an unknown tag),
then the deferred conn.Close. The result of api.Receive is the input; the
trace records the Receive call, the single response written and the close. -/
def handleIncoming (rcv : Except String (List Nat × Nat)) (conf : ServerConfig) :
    List Action :=
  let body :=
    match rcv with
    | .error e => [Action.sendErr ("Failed to receive: " ++ e)]
    | .ok (payload, reqType) =>
      if reqType = TypeAttest then attest conf payload
      else if reqType = TypeVerify then verify conf payload
      else if reqType = TypeTLSCert then tlscert conf payload
      else if reqType = TypeTLSSign then tlssign conf payload
      else [Action.sendErr ("Invalid Type: " ++ toString reqType)]
  Action.receive :: body ++ [Action.close]

/-- ci.Status of the remote-procedure responses. -/
inductive Status where
  | OK : Status
  | FAIL : Status
deriving DecidableEq

/-- ci.AttestationResponse: status and report bytes (the Go pointer returned
by the handler is always non-nil, so the response is modelled as a plain
value). -/
structure AttestationResponse where
  status : Status
  attestationReport : List Nat
deriving DecidableEq

/-- ci.VerificationResponse: status and serialized verification result. -/
structure VerificationResponse where
  status : Status
  verificationResult : List Nat
deriving DecidableEq

/-- ci.TLSSignResponse: status and signature bytes. -/
structure TLSSignResponse where
  status : Status
  signedContent : List Nat
deriving DecidableEq

/-- ci.TLSCertResponse: status and certificate chain. -/
structure TLSCertResponse where
  status : Status
  certificate : List (List Nat)
deriving DecidableEq

/-- The collaborators of the remote-procedure Attest handler (api.go):
tpmdriver.GetTLSKey (none = error), and ar.Sign's ok flag and report bytes
(ar.Generate in this binding returns the report without an error value and
the report is only consumed by ar.Sign, folded into signData). -/
structure AttestEnv where
  getTLSKey : Option Unit
  signOk : Bool
  signData : List Nat

/-- func (s *server) Attest (api.go): a GetTLSKey failure returns a FAIL
response with a nil error; otherwise the response carries ar.Sign's data with
status OK or FAIL by its ok flag — again with a nil call-level error. -/
def Attest (env : AttestEnv) : AttestationResponse × Option String :=
  match env.getTLSKey with
  | none => ({ status := .FAIL, attestationReport := [] }, none)
  | some _ =>
    let status := if env.signOk then Status.OK else Status.FAIL
    ({ status := status, attestationReport := env.signData }, none)

/-- func (s *server) Verify (api.go): ar.Verify always yields a result (the
first parameter); a json.Marshal failure flips the status to FAIL but the
call-level error is always nil. -/
def Verify (result : VerificationResult)
    (jsonMarshal : VerificationResult → Option (List Nat)) :
    VerificationResponse × Option String :=
  match jsonMarshal result with
  | none => ({ status := .FAIL, verificationResult := [] }, none)
  | some data => ({ status := .OK, verificationResult := data }, none)

/-- The collaborators of the remote-procedure TLSSign handler (api.go):
convertHash, tpmdriver.GetTLSKey and the signing operation, each none on
failure. -/
structure TLSSignEnv where
  convertHash : Option (List Nat)
  getTLSKey : Option Unit
  sign : Option (List Nat)

/-- func (s *server) TLSSign (api.go): every failure returns a FAIL response
together with a non-nil call-level error. -/
def TLSSign (env : TLSSignEnv) : TLSSignResponse × Option String :=
  match env.convertHash with
  | none => ({ status := .FAIL, signedContent := [] },
      some "Prover: Failed to find appropriate hash function")
  | some _opts =>
    match env.getTLSKey with
    | none => ({ status := .FAIL, signedContent := [] },
        some "Prover: Failed to get TLS key")
    | some _ =>
      match env.sign with
      | none => ({ status := .FAIL, signedContent := [] },
          some "Prover: Failed to perform Signing operation")
      | some sig => ({ status := .OK, signedContent := sig }, none)

/-- func (s *server) TLSCert (api.go): a missing TLS certificate returns a
FAIL response with a non-nil error; otherwise the chain
[TLSCert, DeviceSubCa] with status OK and nil error. -/
def TLSCert (tlsCert : Option (List Nat)) (deviceSubCa : List Nat) :
    TLSCertResponse × Option String :=
  match tlsCert with
  | none => ({ status := .FAIL, certificate := [] },
      some "No TLS Certificate obtained")
  | some cert => ({ status := .OK, certificate := [cert, deviceSubCa] }, none)

end Cmcd

namespace Cmcd

/-- Dispatch on Attest reduces to the attest handler. -/
lemma handleIncoming_attest (conf : ServerConfig) (p : List Nat) :
    handleIncoming (.ok (p, TypeAttest)) conf
      = Action.receive :: attest conf p ++ [Action.close] := rfl

/-- Dispatch on Verify reduces to the verify handler. -/
lemma handleIncoming_verify (conf : ServerConfig) (p : List Nat) :
    handleIncoming (.ok (p, TypeVerify)) conf
      = Action.receive :: verify conf p ++ [Action.close] := rfl

/-- Dispatch on TLSCert reduces to the tlscert handler. -/
lemma handleIncoming_tlscert (conf : ServerConfig) (p : List Nat) :
    handleIncoming (.ok (p, TypeTLSCert)) conf
      = Action.receive :: tlscert conf p ++ [Action.close] := rfl

/-- Dispatch on TLSSign reduces to the tlssign handler. -/
lemma handleIncoming_tlssign (conf : ServerConfig) (p : List Nat) :
    handleIncoming (.ok (p, TypeTLSSign)) conf
      = Action.receive :: tlssign conf p ++ [Action.close] := rfl

/-- A Receive failure is answered by one error response before the close. -/
lemma handleIncoming_err (conf : ServerConfig) (e : String) :
    handleIncoming (.error e) conf
      = [Action.receive, Action.sendErr ("Failed to receive: " ++ e),
         Action.close] := rfl

/-- An unknown operation tag is answered by one error response naming the
tag, with no handler invoked. -/
lemma handleIncoming_default (conf : ServerConfig) (p : List Nat) (t : Nat)
    (h1 : t ≠ TypeAttest) (h2 : t ≠ TypeVerify) (h3 : t ≠ TypeTLSCert)
    (h4 : t ≠ TypeTLSSign) :
    handleIncoming (.ok (p, t)) conf
      = [Action.receive, Action.sendErr ("Invalid Type: " ++ toString t),
         Action.close] := by
  unfold handleIncoming
  simp only [if_neg h1, if_neg h2, if_neg h3, if_neg h4]
  rfl

/-- The attest handler writes exactly one action: a typed success send or an
error response. -/
lemma attest_single_response (conf : ServerConfig) (p : List Nat) :
    (∃ d, attest conf p = [Action.send TypeAttest d]) ∨
    (∃ m, attest conf p = [Action.sendErr m]) := by
  cases h1 : conf.unmarshalAttest p with
  | none =>
    exact Or.inr ⟨"failed to unmarshal attestation request", by simp [attest, h1]⟩
  | some req =>
    cases h2 : conf.generate req.nonce with
    | none =>
      exact Or.inr ⟨"failed to generate attestation report", by simp [attest, h1, h2]⟩
    | some report =>
      by_cases hs : conf.signerIsNil = true
      · exact Or.inr
          ⟨"Failed to sign attestation report: No valid signer specified in config",
           by simp [attest, h1, h2, hs]⟩
      · cases h3 : conf.signReport report with
        | none =>
          exact Or.inr ⟨"Failed to sign attestation report",
            by simp [attest, h1, h2, hs, h3]⟩
        | some r =>
          cases h4 : conf.marshalAttestResp r with
          | none =>
            exact Or.inr ⟨"failed to marshal message",
              by simp [attest, h1, h2, hs, h3, h4]⟩
          | some data =>
            exact Or.inl ⟨data, by simp [attest, h1, h2, hs, h3, h4]⟩

/-- The verify handler writes exactly one action. -/
lemma verify_single_response (conf : ServerConfig) (p : List Nat) :
    (∃ d, verify conf p = [Action.send TypeVerify d]) ∨
    (∃ m, verify conf p = [Action.sendErr m]) := by
  cases h1 : conf.unmarshalVerify p with
  | none =>
    exact Or.inr ⟨"Failed to unmarshal verification request", by simp [verify, h1]⟩
  | some req =>
    cases h2 : conf.jsonMarshalResult (conf.arVerify req) with
    | none =>
      exact Or.inr ⟨"Verifier: failed to marshal Attestation Result",
        by simp [verify, h1, h2]⟩
    | some r =>
      cases h3 : conf.marshalVerifyResp r with
      | none =>
        exact Or.inr ⟨"failed to marshal message", by simp [verify, h1, h2, h3]⟩
      | some data =>
        exact Or.inl ⟨data, by simp [verify, h1, h2, h3]⟩

/-- The tlssign handler writes exactly one action. -/
lemma tlssign_single_response (conf : ServerConfig) (p : List Nat) :
    (∃ d, tlssign conf p = [Action.send TypeTLSSign d]) ∨
    (∃ m, tlssign conf p = [Action.sendErr m]) := by
  cases h1 : conf.unmarshalSign p with
  | none =>
    exact Or.inr ⟨"failed to unmarshal payload", by simp [tlssign, h1]⟩
  | some req =>
    cases h2 : conf.hashToSignerOpts req.hashtype req.pssOpts with
    | none =>
      exact Or.inr ⟨"failed to choose requested hash function",
        by simp [tlssign, h1, h2]⟩
    | some opts =>
      cases h3 : conf.getSigningKeys with
      | none =>
        exact Or.inr ⟨"failed to get IK", by simp [tlssign, h1, h2, h3]⟩
      | some key =>
        cases h4 : conf.signContent key req.content opts with
        | none =>
          exact Or.inr ⟨"failed to sign", by simp [tlssign, h1, h2, h3, h4]⟩
        | some sig =>
          cases h5 : conf.marshalSignResp sig with
          | none =>
            exact Or.inr ⟨"failed to marshal message",
              by simp [tlssign, h1, h2, h3, h4, h5]⟩
          | some data =>
            exact Or.inl ⟨data, by simp [tlssign, h1, h2, h3, h4, h5]⟩

/-- The tlscert handler writes exactly one action. -/
lemma tlscert_single_response (conf : ServerConfig) (p : List Nat) :
    (∃ d, tlscert conf p = [Action.send TypeTLSCert d]) ∨
    (∃ m, tlscert conf p = [Action.sendErr m]) := by
  cases h1 : conf.unmarshalSign p with
  | none =>
    exact Or.inr ⟨"failed to unmarshal payload", by simp [tlscert, h1]⟩
  | some req =>
    cases h2 : conf.marshalCertResp (conf.writeCertsPem conf.getCertChain) with
    | none =>
      exact Or.inr ⟨"failed to marshal message", by simp [tlscert, h1, h2]⟩
    | some data =>
      exact Or.inl ⟨data, by simp [tlscert, h1, h2]⟩

/-- Every connection trace is one receive, one response (typed success send
or error response), one close. -/
lemma handleIncoming_cases (rcv : Except String (List Nat × Nat))
    (conf : ServerConfig) :
    (∃ t d, handleIncoming rcv conf
        = [Action.receive, Action.send t d, Action.close]) ∨
    (∃ m, handleIncoming rcv conf
        = [Action.receive, Action.sendErr m, Action.close]) := by
  rcases rcv with e | ⟨p, t⟩
  · exact Or.inr ⟨_, handleIncoming_err conf e⟩
  · by_cases h1 : t = TypeAttest
    · subst h1
      rcases attest_single_response conf p with ⟨d, h⟩ | ⟨m, h⟩
      · exact Or.inl ⟨TypeAttest, d, by rw [handleIncoming_attest, h]; rfl⟩
      · exact Or.inr ⟨m, by rw [handleIncoming_attest, h]; rfl⟩
    · by_cases h2 : t = TypeVerify
      · subst h2
        rcases verify_single_response conf p with ⟨d, h⟩ | ⟨m, h⟩
        · exact Or.inl ⟨TypeVerify, d, by rw [handleIncoming_verify, h]; rfl⟩
        · exact Or.inr ⟨m, by rw [handleIncoming_verify, h]; rfl⟩
      · by_cases h3 : t = TypeTLSCert
        · subst h3
          rcases tlscert_single_response conf p with ⟨d, h⟩ | ⟨m, h⟩
          · exact Or.inl ⟨TypeTLSCert, d, by rw [handleIncoming_tlscert, h]; rfl⟩
          · exact Or.inr ⟨m, by rw [handleIncoming_tlscert, h]; rfl⟩
        · by_cases h4 : t = TypeTLSSign
          · subst h4
            rcases tlssign_single_response conf p with ⟨d, h⟩ | ⟨m, h⟩
            · exact Or.inl ⟨TypeTLSSign, d, by rw [handleIncoming_tlssign, h]; rfl⟩
            · exact Or.inr ⟨m, by rw [handleIncoming_tlssign, h]; rfl⟩
          · exact Or.inr ⟨_, handleIncoming_default conf p t h1 h2 h3 h4⟩

/-- A configuration whose collaborators all succeed; ar.Verify yields a
result whose overall verdict is false, and unmarshalSign reads the request id
off the payload (so distinct payloads give requests differing only in id). -/
def confOk : ServerConfig :=
  { unmarshalAttest := fun _ => some { nonce := [1] },
    generate := fun _ => some [9],
    signerIsNil := false,
    signReport := fun _ => some [8],
    marshalAttestResp := fun _ => some [7],
    unmarshalVerify := fun _ =>
      some { attestationReport := [], nonce := [], ca := [], policies := [] },
    arVerify := fun _ => { success := false, detail := [] },
    jsonMarshalResult := fun _ => some [6],
    marshalVerifyResp := fun _ => some [5],
    unmarshalSign := fun p =>
      some { id := p, content := [], hashtype := 0, pssOpts := [] },
    hashToSignerOpts := fun _ _ => some [],
    getSigningKeys := some [],
    signContent := fun _ _ _ => some [4],
    marshalSignResp := fun _ => some [3],
    getCertChain := [[2]],
    writeCertsPem := fun l => l,
    marshalCertResp := fun _ => some [2] }

/-- confOk with no signer configured (conf.Signer == nil). -/
def confNoSigner : ServerConfig := { confOk with signerIsNil := true }

/-- confOk whose attestation-request unmarshalling fails. -/
def confFail : ServerConfig := { confOk with unmarshalAttest := fun _ => none }

end Cmcd

/-- C1 (amended): framing round-trip. For every non-empty byte sequence b of
fewer than 2^32 bytes, reading a stream that holds exactly the bytes produced
by Write b — the 4-byte big-endian length prefix followed by b — reproduces b
exactly; chunk-boundary-crossing sizes such as 1024, 1025 and 3*1024+1 are
instances of the universally quantified statement. The length bound is forced
by the uint32 length prefix (see framing_roundtrip_cex). -/
theorem framing_roundtrip (b : List Nat) (hne : b ≠ []) (hlt : b.length < 2 ^ 32) :
    AttestedTLS.Read ⟨AttestedTLS.Write b, []⟩ = .ok b := by
  have hcr := AttestedTLS.connRead_exact_prefix (AttestedTLS.be32 b.length) b
    (AttestedTLS.be32_length b.length)
  have h0 : b.length ≠ 0 := by
    intro h
    exact hne (List.eq_nil_of_length_eq_zero h)
  simp only [AttestedTLS.Write, AttestedTLS.Read, hcr, AttestedTLS.be32_length,
    Nat.sub_self, List.replicate_zero, List.append_nil,
    AttestedTLS.be32dec_be32 b.length hlt, if_neg h0]
  exact (AttestedTLS.readPayload_exact (b.length + 1) b hne (by omega) 0 []
    b.length (by omega) hlt).trans (by rw [List.nil_append])

/-- C1 witness: the round trip at the chunk-boundary-crossing size 1025. -/
theorem framing_roundtrip_witness :
    (List.replicate 1025 7 : List Nat) ≠ [] ∧
    (List.replicate 1025 7 : List Nat).length < 2 ^ 32 ∧
    AttestedTLS.Read ⟨AttestedTLS.Write (List.replicate 1025 7), []⟩
      = .ok (List.replicate 1025 7) :=
  have hne : (List.replicate 1025 7 : List Nat) ≠ [] := by
    intro h
    have hl := congrArg List.length h
    rw [List.length_replicate] at hl
    simp at hl
  have hlt : (List.replicate 1025 7 : List Nat).length < 2 ^ 32 := by
    rw [List.length_replicate]
    norm_num
  ⟨hne, hlt, framing_roundtrip (List.replicate 1025 7) hne hlt⟩

/-- C1 counterexample: the claim as frozen quantifies over every non-empty
byte sequence, but Write stores the length as uint32(len(msg)); a message of
exactly 2^32 bytes gets the prefix 0x00000000, which Read rejects as a
zero-length message, so the round trip fails. -/
theorem framing_roundtrip_cex :
    AttestedTLS.Read ⟨AttestedTLS.Write (List.replicate (2 ^ 32) 0), []⟩
      = .error AttestedTLS.ReadError.zeroLength := by
  have hW : AttestedTLS.Write (List.replicate (2 ^ 32) 0)
      = [0, 0, 0, 0] ++ List.replicate (2 ^ 32) 0 := by
    unfold AttestedTLS.Write
    rw [List.length_replicate]
    norm_num [AttestedTLS.be32]
  have hcr := AttestedTLS.connRead_exact_prefix [0, 0, 0, 0]
    (List.replicate (2 ^ 32) 0) rfl
  rw [hW]
  unfold AttestedTLS.Read
  rw [hcr]
  rfl

/-- C2: zero-length rejection. On any stream whose 4-byte length prefix is
zero — under every delivery schedule, including short first reads — Read
fails with the zero-length error (message "message length is zero") and no
payload read is attempted, so no message reaches the caller. -/
theorem read_zero_length (rest sched : List Nat) :
    AttestedTLS.Read ⟨0 :: 0 :: 0 :: 0 :: rest, sched⟩
        = .error AttestedTLS.ReadError.zeroLength ∧
    AttestedTLS.ReadError.message AttestedTLS.ReadError.zeroLength
        = "message length is zero" := by
  refine ⟨?_, rfl⟩
  have hg1 : 1 ≤ AttestedTLS.grantSize 4 sched :=
    AttestedTLS.grantSize_pos 4 sched (by omega)
  have hg4 : AttestedTLS.grantSize 4 sched ≤ 4 := by
    cases sched with
    | nil => simp [AttestedTLS.grantSize]
    | cons s r => simp [AttestedTLS.grantSize]
  have ht1 : 1 ≤ min (AttestedTLS.grantSize 4 sched)
      (0 :: 0 :: 0 :: 0 :: rest : List Nat).length := by
    simp only [List.length_cons]
    omega
  have ht4 : min (AttestedTLS.grantSize 4 sched)
      (0 :: 0 :: 0 :: 0 :: rest : List Nat).length ≤ 4 :=
    le_trans (Nat.min_le_left _ _) hg4
  have hcr : AttestedTLS.connRead 4 ⟨0 :: 0 :: 0 :: 0 :: rest, sched⟩ =
      some ((0 :: 0 :: 0 :: 0 :: rest).take
              (min (AttestedTLS.grantSize 4 sched)
                (0 :: 0 :: 0 :: 0 :: rest : List Nat).length),
            ⟨(0 :: 0 :: 0 :: 0 :: rest).drop
              (min (AttestedTLS.grantSize 4 sched)
                (0 :: 0 :: 0 :: 0 :: rest : List Nat).length),
             AttestedTLS.schedRest sched⟩) := by
    unfold AttestedTLS.connRead
    simp
  have hz := AttestedTLS.lenbuf_zeros rest
    (min (AttestedTLS.grantSize 4 sched)
      (0 :: 0 :: 0 :: 0 :: rest : List Nat).length) ht1 ht4
  have hdec : AttestedTLS.be32dec (List.replicate 4 0) = 0 := rfl
  simp only [AttestedTLS.Read, hcr, hz, hdec]
  rfl

/-- C3 (code bug): the spec demands that Read consume exactly 4 bytes for the
length and then exactly L payload bytes, never touching later stream bytes.
The source ignores the count returned by the single length read and lets the
1024-byte chunk loop overshoot. On the framed stream [0,0,0,1,42] (Write of
[42]) a first underlying read delivering only 2 bytes makes Read decode
length 0 from the half-filled buffer and reject the frame, while a full
4-byte delivery of the same stream yields [42]; and with one trailing byte
appended, the chunk read consumes past the frame end and Read fails instead
of returning [42]. -/
theorem read_framing_bug :
    AttestedTLS.Read ⟨[0, 0, 0, 1, 42], [2]⟩
        = .error AttestedTLS.ReadError.zeroLength ∧
    AttestedTLS.Read ⟨[0, 0, 0, 1, 42], []⟩ = .ok [42] ∧
    AttestedTLS.Read ⟨[0, 0, 0, 1, 42, 99], []⟩
        = .error AttestedTLS.ReadError.payloadFail :=
  ⟨rfl, rfl, rfl⟩

/-- C4: a verification whose request unmarshals and whose computed result
marshals is a normal success: the socket binding answers with a TypeVerify
response (never an error response) and the remote-procedure binding returns
Status OK with a nil call-level error — independently of the verdict stored
in the VerificationResult, which both handlers pass through without
inspecting. -/
theorem verify_failure_not_error :
    (∀ (conf : Cmcd.ServerConfig) (p : List Nat) (req : Cmcd.VerificationRequest)
        (r data : List Nat),
        conf.unmarshalVerify p = some req →
        conf.jsonMarshalResult (conf.arVerify req) = some r →
        conf.marshalVerifyResp r = some data →
        Cmcd.handleIncoming (.ok (p, Cmcd.TypeVerify)) conf
          = [Cmcd.Action.receive, Cmcd.Action.send Cmcd.TypeVerify data,
             Cmcd.Action.close]) ∧
    (∀ (result : Cmcd.VerificationResult)
        (jm : Cmcd.VerificationResult → Option (List Nat)) (data : List Nat),
        jm result = some data →
        Cmcd.Verify result jm
          = ({ status := Cmcd.Status.OK, verificationResult := data }, none)) := by
  constructor
  · intro conf p req r data hu hj hm
    rw [Cmcd.handleIncoming_verify]
    simp [Cmcd.verify, hu, hj, hm]
  · intro result jm data h
    simp [Cmcd.Verify, h]

/-- C4 witness: all marshalling succeeds and the verdict is false, yet the
socket binding sends a TypeVerify response and the remote-procedure binding
returns OK with a nil error. -/
theorem verify_failure_not_error_witness :
    Cmcd.confOk.unmarshalVerify []
        = some { attestationReport := [], nonce := [], ca := [], policies := [] } ∧
    Cmcd.confOk.jsonMarshalResult
        (Cmcd.confOk.arVerify
          { attestationReport := [], nonce := [], ca := [], policies := [] })
        = some [6] ∧
    Cmcd.confOk.marshalVerifyResp [6] = some [5] ∧
    (fun _ => some [6] : Cmcd.VerificationResult → Option (List Nat))
        { success := false, detail := [] } = some [6] ∧
    Cmcd.handleIncoming (.ok ([], Cmcd.TypeVerify)) Cmcd.confOk
      = [Cmcd.Action.receive, Cmcd.Action.send Cmcd.TypeVerify [5],
         Cmcd.Action.close] ∧
    Cmcd.Verify { success := false, detail := [] } (fun _ => some [6])
      = ({ status := Cmcd.Status.OK, verificationResult := [6] }, none) :=
  ⟨rfl, rfl, rfl, rfl,
   verify_failure_not_error.1 Cmcd.confOk []
     { attestationReport := [], nonce := [], ca := [], policies := [] }
     [6] [5] rfl rfl rfl,
   verify_failure_not_error.2 { success := false, detail := [] }
     (fun _ => some [6]) [6] rfl⟩

/-- C5: a frame whose operation tag is none of Attest, Verify, TLSCert or
TLSSign is answered by a single error response naming the invalid type; the
trace shows no handler is invoked (the result does not depend on any of the
configured handlers' collaborators) and the server proceeds to a normal
close. -/
theorem unknown_tag_rejected (conf : Cmcd.ServerConfig) (p : List Nat) (t : Nat)
    (h1 : t ≠ Cmcd.TypeAttest) (h2 : t ≠ Cmcd.TypeVerify)
    (h3 : t ≠ Cmcd.TypeTLSCert) (h4 : t ≠ Cmcd.TypeTLSSign) :
    Cmcd.handleIncoming (.ok (p, t)) conf
      = [Cmcd.Action.receive,
         Cmcd.Action.sendErr ("Invalid Type: " ++ toString t),
         Cmcd.Action.close] :=
  Cmcd.handleIncoming_default conf p t h1 h2 h3 h4

/-- C5 witness: tag 0xFF = 255. -/
theorem unknown_tag_rejected_witness :
    (255 : Nat) ≠ Cmcd.TypeAttest ∧ (255 : Nat) ≠ Cmcd.TypeVerify ∧
    (255 : Nat) ≠ Cmcd.TypeTLSCert ∧ (255 : Nat) ≠ Cmcd.TypeTLSSign ∧
    Cmcd.handleIncoming (.ok ([], 255)) Cmcd.confOk
      = [Cmcd.Action.receive,
         Cmcd.Action.sendErr ("Invalid Type: " ++ toString (255 : Nat)),
         Cmcd.Action.close] :=
  ⟨by decide, by decide, by decide, by decide,
   unknown_tag_rejected Cmcd.confOk [] 255 (by decide) (by decide) (by decide)
     (by decide)⟩

/-- C6: an Attest request that unmarshals and whose report generates, served
with conf.Signer == nil, is answered by a normal error response stating that
no valid signer is specified, followed by the ordinary close — not a
transport-level abort; and the trace is unchanged under any replacement of
the signing collaborator, so signing is never attempted. -/
theorem missing_signer_application_failure (conf : Cmcd.ServerConfig)
    (p : List Nat) (req : Cmcd.AttestationRequest) (report : List Nat)
    (h1 : conf.unmarshalAttest p = some req)
    (h2 : conf.generate req.nonce = some report)
    (h3 : conf.signerIsNil = true) :
    Cmcd.handleIncoming (.ok (p, Cmcd.TypeAttest)) conf
      = [Cmcd.Action.receive,
         Cmcd.Action.sendErr
           "Failed to sign attestation report: No valid signer specified in config",
         Cmcd.Action.close] ∧
    ∀ g, Cmcd.attest { conf with signReport := g } p = Cmcd.attest conf p := by
  have hA : ∀ (c : Cmcd.ServerConfig), c.unmarshalAttest p = some req →
      c.generate req.nonce = some report → c.signerIsNil = true →
      Cmcd.attest c p =
        [Cmcd.Action.sendErr
          "Failed to sign attestation report: No valid signer specified in config"] := by
    intro c hc1 hc2 hc3
    simp [Cmcd.attest, hc1, hc2, hc3]
  constructor
  · rw [Cmcd.handleIncoming_attest, hA conf h1 h2 h3]
    rfl
  · intro g
    rw [hA conf h1 h2 h3, hA { conf with signReport := g } h1 h2 h3]

/-- C6 witness: confNoSigner. -/
theorem missing_signer_application_failure_witness :
    Cmcd.confNoSigner.unmarshalAttest [] = some { nonce := [1] } ∧
    Cmcd.confNoSigner.generate [1] = some [9] ∧
    Cmcd.confNoSigner.signerIsNil = true ∧
    (Cmcd.handleIncoming (.ok ([], Cmcd.TypeAttest)) Cmcd.confNoSigner
        = [Cmcd.Action.receive,
           Cmcd.Action.sendErr
             "Failed to sign attestation report: No valid signer specified in config",
           Cmcd.Action.close] ∧
      ∀ g, Cmcd.attest { Cmcd.confNoSigner with signReport := g } []
          = Cmcd.attest Cmcd.confNoSigner []) :=
  ⟨rfl, rfl, rfl,
   missing_signer_application_failure Cmcd.confNoSigner [] { nonce := [1] } [9]
     rfl rfl rfl⟩

/-- C7 (amended): error-response policy. Any handler outcome that is not a
typed success send is answered by a structured error response before the
close; and a transport-level framing failure (api.Receive error) ALSO
results in a structured "Failed to receive" error response being written on
the connection before it is closed — the source does not close silently in
that case (see error_response_policy_cex). -/
theorem error_response_policy :
    (∀ (conf : Cmcd.ServerConfig) (p : List Nat) (t : Nat),
        (¬ ∃ t2 d, Cmcd.handleIncoming (.ok (p, t)) conf
            = [Cmcd.Action.receive, Cmcd.Action.send t2 d, Cmcd.Action.close]) →
        ∃ m, Cmcd.handleIncoming (.ok (p, t)) conf
            = [Cmcd.Action.receive, Cmcd.Action.sendErr m, Cmcd.Action.close]) ∧
    (∀ (conf : Cmcd.ServerConfig) (e : String),
        Cmcd.handleIncoming (.error e) conf
          = [Cmcd.Action.receive,
             Cmcd.Action.sendErr ("Failed to receive: " ++ e),
             Cmcd.Action.close]) := by
  constructor
  · intro conf p t hno
    rcases Cmcd.handleIncoming_cases (.ok (p, t)) conf with ⟨t2, d, h⟩ | ⟨m, h⟩
    · exact absurd ⟨t2, d, h⟩ hno
    · exact ⟨m, h⟩
  · exact Cmcd.handleIncoming_err

/-- C7 counterexample: the claim as frozen says a Receive failure closes the
connection WITHOUT writing a structured error response; in the source,
handleIncoming calls api.SendError before returning, so the trace of a
connection whose Receive fails does contain an error response. -/
theorem error_response_policy_cex :
    Cmcd.handleIncoming (.error "EOF") Cmcd.confOk
      = [Cmcd.Action.receive,
         Cmcd.Action.sendErr ("Failed to receive: " ++ "EOF"),
         Cmcd.Action.close] ∧
    Cmcd.Action.sendErr ("Failed to receive: " ++ "EOF")
      ∈ Cmcd.handleIncoming (.error "EOF") Cmcd.confOk := by
  refine ⟨rfl, ?_⟩
  rw [Cmcd.handleIncoming_err]
  simp

/-- C7 witness: a configuration whose attest unmarshalling fails produces no
success send, and the theorem yields the structured error response. -/
theorem error_response_policy_witness :
    (¬ ∃ t2 d, Cmcd.handleIncoming (.ok ([], Cmcd.TypeAttest)) Cmcd.confFail
        = [Cmcd.Action.receive, Cmcd.Action.send t2 d, Cmcd.Action.close]) ∧
    (∃ m, Cmcd.handleIncoming (.ok ([], Cmcd.TypeAttest)) Cmcd.confFail
        = [Cmcd.Action.receive, Cmcd.Action.sendErr m, Cmcd.Action.close]) ∧
    Cmcd.handleIncoming (.error "x") Cmcd.confFail
      = [Cmcd.Action.receive,
         Cmcd.Action.sendErr ("Failed to receive: " ++ "x"),
         Cmcd.Action.close] := by
  have he : Cmcd.handleIncoming (.ok ([], Cmcd.TypeAttest)) Cmcd.confFail
      = [Cmcd.Action.receive,
         Cmcd.Action.sendErr "failed to unmarshal attestation request",
         Cmcd.Action.close] := rfl
  have hno : ¬ ∃ t2 d, Cmcd.handleIncoming (.ok ([], Cmcd.TypeAttest)) Cmcd.confFail
      = [Cmcd.Action.receive, Cmcd.Action.send t2 d, Cmcd.Action.close] := by
    rintro ⟨t2, d, h⟩
    rw [he] at h
    simp at h
  exact ⟨hno, error_response_policy.1 Cmcd.confFail [] Cmcd.TypeAttest hno,
    error_response_policy.2 Cmcd.confFail "x"⟩

/-- C8: one request per connection. Every connection trace is exactly one
Receive, then one response attempt (a typed success send or an error
response), then the close; in particular the Receive action occurs exactly
once, so no second request is ever read from the same connection. -/
theorem one_request_per_connection (rcv : Except String (List Nat × Nat))
    (conf : Cmcd.ServerConfig) :
    ∃ a, Cmcd.handleIncoming rcv conf
        = [Cmcd.Action.receive, a, Cmcd.Action.close] ∧
      a.isResponse = true ∧
      (Cmcd.handleIncoming rcv conf).count Cmcd.Action.receive = 1 := by
  rcases Cmcd.handleIncoming_cases rcv conf with ⟨t, d, h⟩ | ⟨m, h⟩
  · exact ⟨_, h, rfl, by rw [h]; rfl⟩
  · exact ⟨_, h, rfl, by rw [h]; rfl⟩

/-- C9: the socket tlscert handler ignores the reserved id field: two
well-formed requests under the same configuration whose non-id fields agree
produce identical traces (same certificate-chain response, same status). -/
theorem tlscert_ignores_id (conf : Cmcd.ServerConfig) (p1 p2 : List Nat)
    (r1 r2 : Cmcd.TLSSignRequest)
    (h1 : conf.unmarshalSign p1 = some r1) (h2 : conf.unmarshalSign p2 = some r2)
    (hc : r1.content = r2.content) (hh : r1.hashtype = r2.hashtype)
    (hp : r1.pssOpts = r2.pssOpts) :
    Cmcd.tlscert conf p1 = Cmcd.tlscert conf p2 := by
  simp [Cmcd.tlscert, h1, h2]

/-- C9 witness: two payloads unmarshalling to requests that differ only in
their id. -/
theorem tlscert_ignores_id_witness :
    Cmcd.confOk.unmarshalSign [1]
        = some { id := [1], content := [], hashtype := 0, pssOpts := [] } ∧
    Cmcd.confOk.unmarshalSign [2]
        = some { id := [2], content := [], hashtype := 0, pssOpts := [] } ∧
    Cmcd.tlscert Cmcd.confOk [1] = Cmcd.tlscert Cmcd.confOk [2] :=
  ⟨rfl, rfl,
   tlscert_ignores_id Cmcd.confOk [1] [2]
     { id := [1], content := [], hashtype := 0, pssOpts := [] }
     { id := [2], content := [], hashtype := 0, pssOpts := [] }
     rfl rfl rfl rfl rfl⟩

/-- C10: remote-procedure error conventions. When Attest fails to obtain the
TLS key or to sign, it returns a (non-nil) response with Status FAIL and a
nil call-level error — failure is in-band only; TLSSign reports each of its
failures with a FAIL response AND a non-nil call-level error, and so does
TLSCert when no TLS certificate is present. -/
theorem grpc_error_conventions :
    (∀ env : Cmcd.AttestEnv, env.getTLSKey = none ∨ env.signOk = false →
        (Cmcd.Attest env).1.status = Cmcd.Status.FAIL ∧
        (Cmcd.Attest env).2 = none) ∧
    (∀ env : Cmcd.TLSSignEnv,
        env.convertHash = none ∨ env.getTLSKey = none ∨ env.sign = none →
        (Cmcd.TLSSign env).1.status = Cmcd.Status.FAIL ∧
        (Cmcd.TLSSign env).2 ≠ none) ∧
    (∀ deviceSubCa : List Nat,
        (Cmcd.TLSCert none deviceSubCa).1.status = Cmcd.Status.FAIL ∧
        (Cmcd.TLSCert none deviceSubCa).2 ≠ none) := by
  refine ⟨?_, ?_, ?_⟩
  · intro env h
    obtain ⟨k, s, d⟩ := env
    cases k with
    | none => exact ⟨rfl, rfl⟩
    | some u =>
      rcases h with h | h
      · simp at h
      · simp only at h
        subst h
        exact ⟨rfl, rfl⟩
  · intro env h
    obtain ⟨ch, k, sg⟩ := env
    cases ch with
    | none => exact ⟨rfl, by simp [Cmcd.TLSSign]⟩
    | some o =>
      cases k with
      | none => exact ⟨rfl, by simp [Cmcd.TLSSign]⟩
      | some u =>
        cases sg with
        | none => exact ⟨rfl, by simp [Cmcd.TLSSign]⟩
        | some s =>
          rcases h with h | h | h <;> simp at h
  · intro d
    exact ⟨rfl, by simp [Cmcd.TLSCert]⟩

/-- C10 witness: one concrete failing input per handler. -/
theorem grpc_error_conventions_witness :
    ((Cmcd.Attest { getTLSKey := none, signOk := true, signData := [7] }).1.status
        = Cmcd.Status.FAIL ∧
      (Cmcd.Attest { getTLSKey := none, signOk := true, signData := [7] }).2
        = none) ∧
    ((Cmcd.TLSSign
        { convertHash := none, getTLSKey := some (), sign := some [1] }).1.status
        = Cmcd.Status.FAIL ∧
      (Cmcd.TLSSign
        { convertHash := none, getTLSKey := some (), sign := some [1] }).2
        ≠ none) ∧
    ((Cmcd.TLSCert none [3]).1.status = Cmcd.Status.FAIL ∧
      (Cmcd.TLSCert none [3]).2 ≠ none) :=
  ⟨grpc_error_conventions.1 { getTLSKey := none, signOk := true, signData := [7] }
     (Or.inl rfl),
   grpc_error_conventions.2.1
     { convertHash := none, getTLSKey := some (), sign := some [1] } (Or.inl rfl),
   grpc_error_conventions.2.2 [3]⟩
